import Mathlib

/-!
Shallow embedding of the pikaso shape-drawing core: the abstract
lifecycle class in src/ShapeDrawer/index.ts and the concrete freehand
Pencil drawer. The Board collaborator is outside the given sources, so
the tiny interface it exposes to the drawers is modelled from the spec
where the doc comments say so. Thrown runtime errors, such as a
dereference of a null shape or of a null pointer position, are modelled
as the value none of an Option result type.
-/

/-- Modelled from the spec: DrawType, imported by ShapeDrawer from
src/types which is not among the given sources, is an enumerated tag
identifying which shape type owns the drawing focus. Two representative
tags are enough for every claim. -/
inductive DrawType where
  | pencil
  | circle
deriving DecidableEq, Repr

/-- A 2D coordinate pair, as returned by the pointer position query. -/
structure Point where
  x : Int
  y : Int
deriving DecidableEq, Repr

/-- A Konva.Line primitive as the Pencil drawer uses it: the flat point
sequence, the x and y origin, and the globalCompositeOperation paint
property. Konva defaults are the empty point list and origin zero. -/
structure KonvaLine where
  points : List Int
  x : Int
  y : Int
  globalCompositeOperation : Option String
deriving DecidableEq, Repr

/-- A Konva.LineConfig object literal: each field is an Option, where
none means the key is absent from the literal. -/
structure LineConfig where
  points : Option (List Int) := none
  x : Option Int := none
  y : Option Int := none
  globalCompositeOperation : Option String := none
deriving DecidableEq, Repr

/-- Construction new Konva.Line cfg: absent keys fall back to the Konva
defaults. -/
def KonvaLine.new (cfg : LineConfig) : KonvaLine :=
  { points := cfg.points.getD []
    x := cfg.x.getD 0
    y := cfg.y.getD 0
    globalCompositeOperation := cfg.globalCompositeOperation }

/-- JS object spread of override onto base: keys present in the
override literal win over keys of the base literal. -/
def LineConfig.spread (base override : LineConfig) : LineConfig :=
  { points := override.points <|> base.points
    x := override.x <|> base.x
    y := override.y <|> base.y
    globalCompositeOperation :=
      override.globalCompositeOperation <|> base.globalCompositeOperation }

/-- The six listener registrations draw performs: three on the stage
and three on the window, each tracked by whether the bound handler of
this drawer instance is currently attached. -/
structure Listeners where
  stageMousedownTouchstart : Bool
  stageMousemoveTouchmove : Bool
  stageMouseupTouchend : Bool
  windowMouseup : Bool
  windowTouchend : Bool
  windowKeydown : Bool
deriving DecidableEq, Repr

/-- No listener of this drawer attached. -/
def Listeners.detached : Listeners :=
  ⟨false, false, false, false, false, false⟩

/-- Every listener of this drawer attached. -/
def Listeners.attached : Listeners :=
  ⟨true, true, true, true, true, true⟩

/-- Modelled from the spec: the Board collaborator owns the single
active DrawMode, the committed shape collection, the stage cursor
affordance, the pointer position query and a redraw trigger. Committed
shapes live in a list and a shape reference is an index into it, which
models JS reference identity: the drawer and the collection share the
same object. -/
structure Board where
  activeDrawing : Option DrawType
  shapes : List KonvaLine
  cursor : String
  pointerPos : Option Point
  redrawCount : Nat
deriving DecidableEq, Repr

/-- Modelled from the spec: the active DrawMode setter on the Board. -/
def Board.setActiveDrawing (b : Board) (t : Option DrawType) : Board :=
  { b with activeDrawing := t }

/-- Modelled from the spec: Board.addShape registers the shape in the
committed collection and hands back the registered reference, here the
index of the appended element. -/
def Board.addShape (b : Board) (line : KonvaLine) : Board × Nat :=
  ({ b with shapes := b.shapes ++ [line] }, b.shapes.length)

/-- Modelled from the spec: Board.draw requests a redraw. -/
def Board.redraw (b : Board) : Board :=
  { b with redrawCount := b.redrawCount + 1 }

/-- In-place mutation of the shared shape object reached through a
reference, visible through the committed collection. -/
def Board.setShape (b : Board) (ref : Nat) (line : KonvaLine) : Board :=
  { b with shapes := b.shapes.set ref line }

/-- The mutable fields of one ShapeDrawer instance: the draw type fixed
at construction, the session DraftConfig, the anchor startPoint, the
reference to the in-progress shape, and which of its bound listeners
are attached. startPoint and shape are Options because both start out
uninitialized in the class. -/
structure DrawerState where
  drawType : DrawType
  config : LineConfig
  startPoint : Option Point
  shape : Option Nat
  listeners : Listeners
deriving DecidableEq, Repr

/-- ShapeDrawer.isDrawing: true iff the active DrawMode of the Board
equals the draw type of this drawer. -/
def ShapeDrawer.isDrawing (d : DrawerState) (b : Board) : Bool :=
  decide (b.activeDrawing = some d.drawType)

/-- ShapeDrawer.stopDrawing: nulls the shape reference, clears the
active DrawMode of the Board, resets the cursor and detaches every
listener this drawer attached, in source order. -/
def ShapeDrawer.stopDrawing (d : DrawerState) (b : Board) :
    DrawerState × Board :=
  let d := { d with shape := none }
  let b := b.setActiveDrawing none
  let b := { b with cursor := "inherit" }
  let d := { d with listeners := Listeners.detached }
  (d, b)

/-- ShapeDrawer.draw: stores the config, stops the previous drawing of
this drawer, sets the active DrawMode to the draw type of this drawer
and attaches the six listeners. -/
def ShapeDrawer.draw (cfg : LineConfig) (d : DrawerState) (b : Board) :
    DrawerState × Board :=
  let d := { d with config := cfg }
  let (d, b) := ShapeDrawer.stopDrawing d b
  let b := b.setActiveDrawing (some d.drawType)
  let d := { d with listeners := Listeners.attached }
  (d, b)

/-- ShapeDrawer.getShapePosition: origin of the in-progress shape; the
non-null assertion on a null shape throws, modelled as none. -/
def ShapeDrawer.getShapePosition (d : DrawerState) (b : Board) :
    Option Point :=
  match d.shape with
  | none => none
  | some ref => (b.shapes[ref]?).map (fun line => ⟨line.x, line.y⟩)

/-- Base ShapeDrawer.onStartDrawing: returns early unless this drawer
is drawing, otherwise captures the pointer position as the anchor; the
non-null assertion on a null pointer position throws, modelled as
none. -/
def ShapeDrawer.onStartDrawing (d : DrawerState) (b : Board) :
    Option DrawerState :=
  if !ShapeDrawer.isDrawing d b then some d
  else
    match b.pointerPos with
    | none => none
    | some p => some { d with startPoint := some p }

/-- Base ShapeDrawer.onDrawing: sets the crosshair cursor while this
drawer is drawing, otherwise leaves the Board alone. -/
def ShapeDrawer.onDrawing (d : DrawerState) (b : Board) : Board :=
  if ShapeDrawer.isDrawing d b then { b with cursor := "crosshair" } else b

/-- ShapeDrawer.onFinishDrawing: nulls the shape reference and resets
the cursor; the active DrawMode and the listeners are untouched. -/
def ShapeDrawer.onFinishDrawing (d : DrawerState) (b : Board) :
    DrawerState × Board :=
  ({ d with shape := none }, { b with cursor := "inherit" })

/-- ShapeDrawer.onKeyDown: the Escape key calls stopDrawing, every
other key does nothing. -/
def ShapeDrawer.onKeyDown (key : String) (d : DrawerState) (b : Board) :
    DrawerState × Board :=
  if key = "Escape" then ShapeDrawer.stopDrawing d b else (d, b)

/-- Pencil.createShape: constructs a new Konva.Line from the config,
stores it as the in-progress shape and registers it with the Board,
returning the registered reference. -/
def Pencil.createShape (cfg : LineConfig) (d : DrawerState) (b : Board) :
    DrawerState × Board × Nat :=
  let line := KonvaLine.new cfg
  let (b, ref) := b.addShape line
  ({ d with shape := some ref }, b, ref)

/-- ShapeDrawer.insert as the Pencil instance runs it: stopDrawing,
then createShape on the given config, whose result is returned. -/
def Pencil.insert (cfg : LineConfig) (d : DrawerState) (b : Board) :
    DrawerState × Board × Nat :=
  let (d, b) := ShapeDrawer.stopDrawing d b
  Pencil.createShape cfg d b

/-- Pencil.draw only delegates to the base draw. -/
def Pencil.draw (cfg : LineConfig) (d : DrawerState) (b : Board) :
    DrawerState × Board :=
  ShapeDrawer.draw cfg d b

/-- Pencil.onStartDrawing: runs the base anchor capture, then always
creates the seed polyline from the stored anchor merged under the
DraftConfig with a source-over composite default; reading a never
captured anchor throws, modelled as none. -/
def Pencil.onStartDrawing (d : DrawerState) (b : Board) :
    Option (DrawerState × Board) :=
  match ShapeDrawer.onStartDrawing d b with
  | none => none
  | some d =>
    match d.startPoint with
    | none => none
    | some sp =>
      let seed : LineConfig :=
        { globalCompositeOperation := some "source-over"
          points := some [sp.x, sp.y] }
      let (d, b, _) := Pencil.createShape (LineConfig.spread seed d.config) d b
      some (d, b)

/-- Pencil.onDrawing: runs the base cursor update; with a null shape it
returns, otherwise it appends the pointer position to the point
sequence of the shared shape object and requests a redraw. A held
reference always indexes the collection in reachable states, so the
read uses a default for totality. -/
def Pencil.onDrawing (d : DrawerState) (b : Board) :
    Option (DrawerState × Board) :=
  let b := ShapeDrawer.onDrawing d b
  match d.shape with
  | none => some (d, b)
  | some ref =>
    match b.pointerPos with
    | none => none
    | some p =>
      let line := b.shapes.getD ref (KonvaLine.new {})
      let b := b.setShape ref { line with points := line.points ++ [p.x, p.y] }
      some (d, b.redraw)

/-- A two-drawer system: drawer A, drawer B and the shared Board. A
method call on B receives only B and the Board, exactly as in JS where
B holds no reference to A. -/
def drawOnB (cfg : LineConfig) (s : DrawerState × DrawerState × Board) :
    DrawerState × DrawerState × Board :=
  let (bDrawer, board) := ShapeDrawer.draw cfg s.2.1 s.2.2
  (s.1, bDrawer, board)

/-! Concrete states used by counterexamples and witnesses. -/

/-- A freshly constructed Pencil drawer and an idle Board. -/
def pencilIdle : DrawerState :=
  { drawType := .pencil, config := {}, startPoint := none, shape := none,
    listeners := Listeners.detached }

/-- A freshly constructed second drawer with a distinct draw type. -/
def circleIdle : DrawerState :=
  { drawType := .circle, config := {}, startPoint := none, shape := none,
    listeners := Listeners.detached }

/-- The Board before any interaction. -/
def boardIdle : Board :=
  { activeDrawing := none, shapes := [], cursor := "inherit",
    pointerPos := none, redrawCount := 0 }

/-- A Pencil drawer mid-session: anchored at the origin, holding shape
reference 0, with all of its listeners attached. -/
def pencilMid : DrawerState :=
  { drawType := .pencil, config := {}, startPoint := some ⟨0, 0⟩,
    shape := some 0, listeners := Listeners.attached }

/-- The Board matching pencilMid: one committed one-point polyline, the
pencil mode active and the pointer at 9, 9. -/
def boardMid : Board :=
  { activeDrawing := some .pencil,
    shapes := [⟨[0, 0], 0, 0, some "source-over"⟩],
    cursor := "crosshair", pointerPos := some ⟨9, 9⟩, redrawCount := 1 }

/-- The Board after another drawer took over and stopped: no active
mode, yet the polyline of the stale pencil session is still committed
and the pencil drawer still holds its reference. -/
def boardStale : Board :=
  { activeDrawing := none,
    shapes := [⟨[0, 0], 0, 0, some "source-over"⟩],
    cursor := "inherit", pointerPos := some ⟨5, 5⟩, redrawCount := 0 }

/-! Helper lemmas shared by several results. -/

/-- The base move handler only touches the cursor: shapes survive. -/
theorem onDrawing_shapes (d : DrawerState) (b : Board) :
    (ShapeDrawer.onDrawing d b).shapes = b.shapes := by
  unfold ShapeDrawer.onDrawing
  split <;> rfl

/-- The base move handler only touches the cursor: the pointer position
survives. -/
theorem onDrawing_pointerPos (d : DrawerState) (b : Board) :
    (ShapeDrawer.onDrawing d b).pointerPos = b.pointerPos := by
  unfold ShapeDrawer.onDrawing
  split <;> rfl

/-- C2: after any call to stopDrawing, from any state, the in-progress
shape reference of the calling drawer is null and every one of the six
listeners that drawer attaches is unregistered. -/
theorem C2_stopDrawing_clears (d : DrawerState) (b : Board) :
    (ShapeDrawer.stopDrawing d b).1.shape = none ∧
    (ShapeDrawer.stopDrawing d b).1.listeners = Listeners.detached :=
  ⟨rfl, rfl⟩

/-- C2 witness at a mid-session drawer state. -/
theorem C2_stopDrawing_clears_witness :
    (ShapeDrawer.stopDrawing pencilMid boardMid).1.shape = none ∧
    (ShapeDrawer.stopDrawing pencilMid boardMid).1.listeners =
      Listeners.detached :=
  C2_stopDrawing_clears pencilMid boardMid

/-- C3 counterexample: the circle drawer is not the active mode, yet
its stopDrawing changes the active DrawMode of the Board, from the
pencil mode to none. -/
theorem C3_counterexample :
    ShapeDrawer.isDrawing circleIdle boardMid = false ∧
    (ShapeDrawer.stopDrawing circleIdle boardMid).2.activeDrawing ≠
      boardMid.activeDrawing := by
  decide

/-- C3 amended: stopDrawing unconditionally sets the active DrawMode of
the Board to none, whichever drawer was active; beyond that it only
nulls the calling drawer shape reference, detaches the calling drawer
listeners and resets the cursor, leaving the committed shapes, the
pointer position and the redraw counter alone. -/
theorem C3_stopDrawing_frame (d : DrawerState) (b : Board) :
    (ShapeDrawer.stopDrawing d b).2.activeDrawing = none ∧
    (ShapeDrawer.stopDrawing d b).2.shapes = b.shapes ∧
    (ShapeDrawer.stopDrawing d b).2.pointerPos = b.pointerPos ∧
    (ShapeDrawer.stopDrawing d b).2.redrawCount = b.redrawCount ∧
    (ShapeDrawer.stopDrawing d b).2.cursor = "inherit" ∧
    (ShapeDrawer.stopDrawing d b).1 =
      { d with shape := none, listeners := Listeners.detached } :=
  ⟨rfl, rfl, rfl, rfl, rfl, rfl⟩

/-- C4: insert first runs stopDrawing, then creates the shape from the
given config; the returned reference is exactly the one just appended
to the committed collection of the Board, and the active DrawMode ends
up cleared. -/
theorem C4_insert_commits (cfg : LineConfig) (d : DrawerState) (b : Board) :
    (Pencil.insert cfg d b).2.2 = b.shapes.length ∧
    (Pencil.insert cfg d b).2.1.shapes = b.shapes ++ [KonvaLine.new cfg] ∧
    (Pencil.insert cfg d b).2.1.shapes[(Pencil.insert cfg d b).2.2]? =
      some (KonvaLine.new cfg) ∧
    (Pencil.insert cfg d b).2.1.activeDrawing = none ∧
    (Pencil.insert cfg d b).1.shape = some (Pencil.insert cfg d b).2.2 ∧
    (Pencil.insert cfg d b).1.listeners = Listeners.detached := by
  refine ⟨rfl, rfl, ?_, rfl, rfl, rfl⟩
  exact List.getElem?_concat_length b.shapes (KonvaLine.new cfg)

/-- C8: stopDrawing is idempotent; the second call finds the very same
drawer and Board state the first produced, and being a total function
it raises no error. -/
theorem C8_stopDrawing_idem (d : DrawerState) (b : Board) :
    ShapeDrawer.stopDrawing (ShapeDrawer.stopDrawing d b).1
      (ShapeDrawer.stopDrawing d b).2 = ShapeDrawer.stopDrawing d b :=
  rfl

/-- C9: finishing a shape on pointer-up keeps the drawer in drawing
mode: only the shape reference and the cursor are reset, the active
DrawMode, the listener set and everything else survive, so isDrawing
stays true. -/
theorem C9_finish_keeps_mode (d : DrawerState) (b : Board)
    (h : ShapeDrawer.isDrawing d b = true) :
    (ShapeDrawer.onFinishDrawing d b).1.shape = none ∧
    (ShapeDrawer.onFinishDrawing d b).2.cursor = "inherit" ∧
    (ShapeDrawer.onFinishDrawing d b).2.activeDrawing = b.activeDrawing ∧
    ShapeDrawer.isDrawing (ShapeDrawer.onFinishDrawing d b).1
      (ShapeDrawer.onFinishDrawing d b).2 = true ∧
    (ShapeDrawer.onFinishDrawing d b).1.listeners = d.listeners ∧
    (ShapeDrawer.onFinishDrawing d b).2.shapes = b.shapes ∧
    (ShapeDrawer.onFinishDrawing d b).1.startPoint = d.startPoint ∧
    (ShapeDrawer.onFinishDrawing d b).1.config = d.config ∧
    (ShapeDrawer.onFinishDrawing d b).2.pointerPos = b.pointerPos ∧
    (ShapeDrawer.onFinishDrawing d b).2.redrawCount = b.redrawCount :=
  ⟨rfl, rfl, rfl, h, rfl, rfl, rfl, rfl, rfl, rfl⟩

/-- C9 witness at the mid-session pencil state, where drawing mode is
active. -/
theorem C9_finish_keeps_mode_witness :
    ShapeDrawer.isDrawing pencilMid boardMid = true ∧
    ShapeDrawer.isDrawing (ShapeDrawer.onFinishDrawing pencilMid boardMid).1
      (ShapeDrawer.onFinishDrawing pencilMid boardMid).2 = true ∧
    (ShapeDrawer.onFinishDrawing pencilMid boardMid).1.shape = none ∧
    (ShapeDrawer.onFinishDrawing pencilMid boardMid).1.listeners =
      Listeners.attached :=
  ⟨by decide, (C9_finish_keeps_mode pencilMid boardMid (by decide)).2.2.2.1,
   (C9_finish_keeps_mode pencilMid boardMid (by decide)).1, by decide⟩

/-- C1 counterexample: drawer A enters pencil mode and anchors a shape;
drawer B then calls draw. Afterwards A.isDrawing is indeed false, yet
every listener A registered is still attached, and a pointer-down
routed through the still-attached listener of A mutates the Board: a
second shape appears in the committed collection. -/
theorem C1_counterexample :
    let s0 := Pencil.draw {} pencilIdle boardIdle
    let s1 := (Pencil.onStartDrawing s0.1
      { s0.2 with pointerPos := some ⟨0, 0⟩ }).getD s0
    let s2 := ShapeDrawer.draw {} circleIdle s1.2
    ShapeDrawer.isDrawing s1.1 s2.2 = false ∧
    s1.1.listeners = Listeners.attached ∧
    Listeners.attached ≠ Listeners.detached ∧
    s2.2.shapes.length = 1 ∧
    (Pencil.onStartDrawing s1.1
      { s2.2 with pointerPos := some ⟨3, 4⟩ }).map
        (fun r => r.2.shapes.length) = some 2 := by
  decide

/-- C1 amended: when drawer B with a distinct draw type calls draw, B
becomes the single drawer in drawing mode, so A.isDrawing turns false;
but the call leaves A itself entirely untouched, in particular every
listener A had attached stays attached, because the stopDrawing inside
draw only detaches the listeners of B. -/
theorem C1_draw_takeover (A B : DrawerState) (b : Board) (cfg : LineConfig)
    (h : A.drawType ≠ B.drawType) :
    (drawOnB cfg (A, B, b)).1 = A ∧
    ShapeDrawer.isDrawing (drawOnB cfg (A, B, b)).1
      (drawOnB cfg (A, B, b)).2.2 = false ∧
    ShapeDrawer.isDrawing (drawOnB cfg (A, B, b)).2.1
      (drawOnB cfg (A, B, b)).2.2 = true ∧
    (drawOnB cfg (A, B, b)).2.1.listeners = Listeners.attached := by
  refine ⟨rfl, ?_, ?_, rfl⟩
  · simp [drawOnB, ShapeDrawer.draw, ShapeDrawer.stopDrawing,
      Board.setActiveDrawing, ShapeDrawer.isDrawing]
    exact fun hc => h hc.symm
  · simp [drawOnB, ShapeDrawer.draw, ShapeDrawer.stopDrawing,
      Board.setActiveDrawing, ShapeDrawer.isDrawing]

/-- C1 witness: the takeover applied to the concrete pencil and circle
drawers on the idle Board. -/
theorem C1_draw_takeover_witness :
    pencilMid.drawType ≠ circleIdle.drawType ∧
    ((drawOnB {} (pencilMid, circleIdle, boardMid)).1 = pencilMid ∧
     ShapeDrawer.isDrawing (drawOnB {} (pencilMid, circleIdle, boardMid)).1
       (drawOnB {} (pencilMid, circleIdle, boardMid)).2.2 = false ∧
     ShapeDrawer.isDrawing (drawOnB {} (pencilMid, circleIdle, boardMid)).2.1
       (drawOnB {} (pencilMid, circleIdle, boardMid)).2.2 = true ∧
     (drawOnB {} (pencilMid, circleIdle, boardMid)).2.1.listeners =
       Listeners.attached) :=
  ⟨by decide, C1_draw_takeover pencilMid circleIdle boardMid {} (by decide)⟩

/-- C6 counterexample: drawer A anchors a pencil shape, drawer B takes
over with draw and then stops, so A.isDrawing is false while A still
holds a non-null stale shape reference; a pointer-move delivered to A
then mutates the committed geometry, appending the pointer position. -/
theorem C6_counterexample :
    let s0 := Pencil.draw {} pencilIdle boardIdle
    let s1 := (Pencil.onStartDrawing s0.1
      { s0.2 with pointerPos := some ⟨0, 0⟩ }).getD s0
    let s2 := ShapeDrawer.draw {} circleIdle s1.2
    let s3 := ShapeDrawer.stopDrawing s2.1 s2.2
    ShapeDrawer.isDrawing s1.1 s3.2 = false ∧
    s1.1.shape = some 0 ∧
    s3.2.shapes.map KonvaLine.points = [[0, 0]] ∧
    (Pencil.onDrawing s1.1 { s3.2 with pointerPos := some ⟨5, 5⟩ }).map
      (fun r => r.2.shapes.map KonvaLine.points) = some [[0, 0, 5, 5]] := by
  decide

/-- C6 amended: a pointer-move while isDrawing is false leaves the
cursor alone, and when the shape reference is also null the event is a
complete no-op with no error; only a stale non-null reference, possible
after another drawer takes over, still gets points appended. -/
theorem C6_move_ignored (d : DrawerState) (b : Board)
    (h1 : ShapeDrawer.isDrawing d b = false) (h2 : d.shape = none) :
    Pencil.onDrawing d b = some (d, b) := by
  unfold Pencil.onDrawing ShapeDrawer.onDrawing
  rw [h1, h2]
  rfl

/-- C6 witness: a move on the idle circle drawer over the idle Board
changes nothing. -/
theorem C6_move_ignored_witness :
    Pencil.onDrawing circleIdle boardIdle = some (circleIdle, boardIdle) :=
  C6_move_ignored circleIdle boardIdle (by decide) rfl

/-- C7: getShapePosition with a null shape reference yields the failure
value none, the modelled thrown error, never a default Point; with a
non-null reference it returns the current origin of that shape. -/
theorem C7_getShapePosition_spec (d : DrawerState) (b : Board) :
    (d.shape = none → ShapeDrawer.getShapePosition d b = none) ∧
    (∀ ref, d.shape = some ref → ∀ line, b.shapes[ref]? = some line →
      ShapeDrawer.getShapePosition d b = some ⟨line.x, line.y⟩) := by
  constructor
  · intro h
    simp [ShapeDrawer.getShapePosition, h]
  · intro ref h line hline
    simp [ShapeDrawer.getShapePosition, h, hline]

/-- C7 witness: the null case on the idle circle drawer and the
non-null case on the mid-session pencil drawer. -/
theorem C7_getShapePosition_spec_witness :
    ShapeDrawer.getShapePosition circleIdle boardIdle = none ∧
    ShapeDrawer.getShapePosition pencilMid boardMid = some ⟨0, 0⟩ :=
  ⟨(C7_getShapePosition_spec circleIdle boardIdle).1 rfl,
   (C7_getShapePosition_spec pencilMid boardMid).2 0 rfl
     ⟨[0, 0], 0, 0, some "source-over"⟩ rfl⟩

/-- C10: when the pencil pointer-down handler fires while isDrawing is
false, the base handler returns without capturing a new anchor, yet the
pencil still creates a shape and registers it with the Board, seeded
from the previously stored anchor merged under the DraftConfig; with no
anchor ever captured the access fails, modelled as none. -/
theorem C10_pencil_down_unguarded (d : DrawerState) (b : Board)
    (h : ShapeDrawer.isDrawing d b = false) :
    (∀ p, d.startPoint = some p →
      Pencil.onStartDrawing d b = some
        ({ d with shape := some b.shapes.length },
         { b with shapes := b.shapes ++
             [KonvaLine.new (LineConfig.spread
               ⟨some [p.x, p.y], none, none, some "source-over"⟩ d.config)] })) ∧
    (d.startPoint = none → Pencil.onStartDrawing d b = none) := by
  constructor
  · intro p hp
    simp [Pencil.onStartDrawing, ShapeDrawer.onStartDrawing, h, hp,
      Pencil.createShape, Board.addShape]
  · intro hp
    simp [Pencil.onStartDrawing, ShapeDrawer.onStartDrawing, h, hp]

/-- C10 witness: the unguarded creation on the stale pencil state,
whose anchor is the origin, and the failing access on the circle drawer
that never captured an anchor. -/
theorem C10_pencil_down_unguarded_witness :
    Pencil.onStartDrawing pencilMid boardStale = some
      ({ pencilMid with shape := some boardStale.shapes.length },
       { boardStale with shapes := boardStale.shapes ++
           [KonvaLine.new (LineConfig.spread
             ⟨some [0, 0], none, none, some "source-over"⟩
             pencilMid.config)] }) ∧
    Pencil.onStartDrawing circleIdle boardStale = none :=
  ⟨(C10_pencil_down_unguarded pencilMid boardStale (by decide)).1 ⟨0, 0⟩ rfl,
   (C10_pencil_down_unguarded circleIdle boardStale (by decide)).2 rfl⟩

/-- The freehand scenario: enter pencil mode with an empty draft
config, pointer-down at the origin, then moves at 1, 1 and 2, 2. -/
def pencilRun : Option (DrawerState × Board) :=
  let s0 := Pencil.draw {} pencilIdle boardIdle
  match Pencil.onStartDrawing s0.1 { s0.2 with pointerPos := some ⟨0, 0⟩ } with
  | none => none
  | some (d, b) =>
    match Pencil.onDrawing d { b with pointerPos := some ⟨1, 1⟩ } with
    | none => none
    | some (d, b) => Pencil.onDrawing d { b with pointerPos := some ⟨2, 2⟩ }

/-- C5: the freehand scenario yields the point sequence 0 0 1 1 2 2 in
order on the single committed polyline, the one the drawer holds as its
in-progress shape; and in general every move with a live shape appends
exactly the pointer position to that shape, preserving length and every
other committed shape, so points are never removed or reordered. -/
theorem C5_pencil_points :
    (pencilRun.map (fun r => (r.1.shape, r.2.shapes.map KonvaLine.points)) =
      some (some 0, [[0, 0, 1, 1, 2, 2]])) ∧
    ∀ (d : DrawerState) (b : Board) (ref : Nat) (p : Point),
      d.shape = some ref → b.pointerPos = some p → ref < b.shapes.length →
      ∃ b2, Pencil.onDrawing d b = some (d, b2) ∧
        b2.shapes.length = b.shapes.length ∧
        (b2.shapes.getD ref (KonvaLine.new {})).points =
          (b.shapes.getD ref (KonvaLine.new {})).points ++ [p.x, p.y] ∧
        ∀ j, j ≠ ref → b2.shapes[j]? = b.shapes[j]? := by
  constructor
  · decide
  · intro d b ref p h1 h2 h3
    have hpp : (ShapeDrawer.onDrawing d b).pointerPos = some p := by
      rw [onDrawing_pointerPos]
      exact h2
    have hsh := onDrawing_shapes d b
    refine ⟨(Board.setShape (ShapeDrawer.onDrawing d b) ref
      { b.shapes.getD ref (KonvaLine.new {}) with
        points := (b.shapes.getD ref (KonvaLine.new {})).points ++
          [p.x, p.y] }).redraw, ?_, ?_, ?_, ?_⟩
    · simp [Pencil.onDrawing, h1, hpp, hsh]
    · simp [Board.redraw, Board.setShape, hsh]
    · simp [Board.redraw, Board.setShape, hsh, List.getD_eq_getElem?_getD,
        List.getElem?_set_self h3]
    · intro j hj
      simp [Board.redraw, Board.setShape, hsh,
        List.getElem?_set_ne (Ne.symm hj)]

/-- C5 witness: a single move on the mid-session pencil state appends
the pointer position 9, 9. -/
theorem C5_pencil_points_witness :
    ∃ b2, Pencil.onDrawing pencilMid boardMid = some (pencilMid, b2) ∧
      b2.shapes.length = boardMid.shapes.length ∧
      (b2.shapes.getD 0 (KonvaLine.new {})).points =
        (boardMid.shapes.getD 0 (KonvaLine.new {})).points ++ [(9 : Int), 9] ∧
      ∀ j, j ≠ 0 → b2.shapes[j]? = boardMid.shapes[j]? :=
  C5_pencil_points.2 pencilMid boardMid 0 ⟨9, 9⟩ rfl rfl (by decide)
